import Mathlib

/-!
Shallow embedding of `src/tasks.py` from openrelik-worker-exif: the Celery
task `command`, which runs `exiftool` once per resolved input file,
redirecting stdout to a freshly allocated output artifact, and aggregates
the artifacts into a task result.

External collaborators (from `openrelik_worker_common`, outside this
repository) are modelled from the spec's collaborator contracts (§6):
the input resolver is replaced by taking the resolved input-file list as a
parameter, the output allocator returns a record of the arguments it was
given, and the result builder returns a record of the arguments it was
given. Child processes are modelled as an oracle mapping an argument
vector to an exit code and raw stderr bytes.
-/

namespace ExifWorker

/-- A Python value as it may appear in `task_config`, with Python truthiness. -/
inductive PyValue where
  | none
  | bool (b : Bool)
  | int (n : Int)
  | str (s : String)
deriving Repr, DecidableEq

/-- Python truthiness of a `PyValue` (`bool(v)`). -/
def PyValue.truthy : PyValue → Bool
  | .none => false
  | .bool b => b
  | .int n => n != 0
  | .str s => s != ""

/-- A `task_config` dict, modelled as an association list over recognised keys. -/
abbrev TaskConfig := List (String × PyValue)

/-- Python `d.get(key, default)` on a `TaskConfig` dict. -/
def dictGet (d : TaskConfig) (key : String) (dflt : PyValue) : PyValue :=
  match d.find? (fun kv => kv.1 == key) with
  | some kv => kv.2
  | Option.none => dflt

/-- A resolved input file dictionary: `{"path": ..., "display_name": ...}`. -/
structure InputFile where
  path : String
  display_name : String
deriving Repr, DecidableEq

/-- Modelled from the spec: the external output allocator's result
(`create_output_file`), a record of the arguments the task passed it,
with a writable `path` (kept opaque here as the allocation directory). -/
structure OutputFile where
  output_path : String
  display_name : String
  extension : String
  data_type : String
deriving Repr, DecidableEq

/-- Modelled from the spec: `create_output_file(output_path, display_name=...,
extension=..., data_type=...)` allocates an artifact recording exactly the
arguments passed. -/
def create_output_file (output_path display_name extension data_type : String) :
    OutputFile :=
  ⟨output_path, display_name, extension, data_type⟩

/-- Modelled from the spec: the opaque `toSerializable()` projection
(`output_file.to_dict()`), modelled as the identity on the artifact record. -/
def OutputFile.to_dict (f : OutputFile) : OutputFile := f

/-- Modelled from the spec: the external result builder
(`create_task_result`), a record of the arguments the task passed it. -/
structure TaskResult where
  output_files : List OutputFile
  workflow_id : Option String
  command : String
  meta : List (String × String)
deriving Repr, DecidableEq

/-- Modelled from the spec: `create_task_result(output_files=..., workflow_id=...,
command=..., meta=...)` builds the result from exactly the arguments passed. -/
def create_task_result (output_files : List OutputFile) (workflow_id : Option String)
    (command : String) (meta : List (String × String)) : TaskResult :=
  ⟨output_files, workflow_id, command, meta⟩

/-- Result of one child process: `process.returncode` and the captured
`stderr` as raw bytes (as returned by `process.communicate()`). -/
structure ProcResult where
  returncode : Int
  stderr : List Nat
deriving Repr, DecidableEq

/-- Is `b` a UTF-8 continuation byte (`0x80..0xBF`)? -/
def isUtf8Cont (b : Nat) : Bool := 0x80 ≤ b && b < 0xC0

/-- Strict UTF-8 decoding of a byte list to characters, as Python's
`bytes.decode()` performs it: rejects stray continuation bytes, overlong
encodings, surrogate code points and code points above `0x10FFFF`. -/
def utf8DecodeChars : List Nat → Option (List Char)
  | [] => some []
  | b1 :: rest =>
    if b1 < 0x80 then
      match utf8DecodeChars rest with
      | some cs => some (Char.ofNat b1 :: cs)
      | Option.none => Option.none
    else if b1 < 0xC2 then
      Option.none
    else if b1 < 0xE0 then
      match rest with
      | b2 :: rest2 =>
        if isUtf8Cont b2 then
          match utf8DecodeChars rest2 with
          | some cs => some (Char.ofNat ((b1 - 0xC0) * 0x40 + (b2 - 0x80)) :: cs)
          | Option.none => Option.none
        else Option.none
      | [] => Option.none
    else if b1 < 0xF0 then
      match rest with
      | b2 :: b3 :: rest3 =>
        if isUtf8Cont b2 && isUtf8Cont b3 then
          let cp := (b1 - 0xE0) * 0x1000 + (b2 - 0x80) * 0x40 + (b3 - 0x80)
          if cp < 0x800 then Option.none
          else if 0xD800 ≤ cp && cp < 0xE000 then Option.none
          else
            match utf8DecodeChars rest3 with
            | some cs => some (Char.ofNat cp :: cs)
            | Option.none => Option.none
        else Option.none
      | _ => Option.none
    else if b1 < 0xF5 then
      match rest with
      | b2 :: b3 :: b4 :: rest4 =>
        if isUtf8Cont b2 && isUtf8Cont b3 && isUtf8Cont b4 then
          let cp := (b1 - 0xF0) * 0x40000 + (b2 - 0x80) * 0x1000 +
            (b3 - 0x80) * 0x40 + (b4 - 0x80)
          if cp < 0x10000 then Option.none
          else if 0x10FFFF < cp then Option.none
          else
            match utf8DecodeChars rest4 with
            | some cs => some (Char.ofNat cp :: cs)
            | Option.none => Option.none
        else Option.none
      | _ => Option.none
    else Option.none

/-- Python `stderr.decode()`: strict UTF-8 decoding of bytes to a string,
`none` when a `UnicodeDecodeError` would be raised. -/
def utf8Decode (bs : List Nat) : Option String :=
  match utf8DecodeChars bs with
  | some cs => some (String.mk cs)
  | Option.none => Option.none

/-- How the task invocation can fail: a `RuntimeError` with a message, or a
`UnicodeDecodeError` raised by `stderr.decode()` on the failure path. -/
inductive TaskError where
  | runtime (message : String)
  | unicodeDecode
deriving Repr, DecidableEq

/-- `task_config = task_config or {}` followed by
`task_config.get("json_output", False)`, interpreted by Python truthiness
(line 65 and 70 of tasks.py). -/
def json_output_enabled (task_config : Option TaskConfig) : Bool :=
  (dictGet (task_config.getD []) "json_output" (.bool false)).truthy

/-- `base_command = ["exiftool"]; if json_output_enabled: base_command.append("-json")`
(lines 72-74 of tasks.py). -/
def base_command (task_config : Option TaskConfig) : List String :=
  ["exiftool"] ++ (if json_output_enabled task_config then ["-json"] else [])

/-- `base_command_string = " ".join(base_command)` (line 76 of tasks.py). -/
def base_command_string (task_config : Option TaskConfig) : String :=
  String.intercalate " " (base_command task_config)

/-- The per-file loop of `command` (lines 78-106 of tasks.py). Returns the
trace of child-process argument vectors, in invocation order, together with
either the accumulated serialized output artifacts or the first error.
`runner` is the child-process oracle. -/
def runLoop (base : List String) (json : Bool) (output_path : String)
    (runner : List String → ProcResult) :
    List InputFile → List (List String) × Except TaskError (List OutputFile)
  | [] => ([], .ok [])
  | input_file :: rest =>
    let output_file_extension := if json then ".json" else ".txt"
    let output_file_data_type := if json then "application/json" else "text/plain"
    let output_file := create_output_file output_path input_file.display_name
      output_file_extension output_file_data_type
    let current_command := base ++ [input_file.path]
    let process := runner current_command
    if process.returncode ≠ 0 then
      ([current_command],
        match utf8Decode process.stderr with
        | some s =>
          .error (.runtime ("ExifTool failed for " ++ input_file.path ++ ": " ++ s))
        | Option.none => .error .unicodeDecode)
    else
      let next := runLoop base json output_path runner rest
      (current_command :: next.1,
        match next.2 with
        | .ok outs => .ok (output_file.to_dict :: outs)
        | .error e => .error e)

/-- The task function `command` of tasks.py, over the resolved input-file
list (input resolution via `get_input_files` is the external resolver's
responsibility). Returns the trace of child invocations and either the
built task result or the raised error. -/
def command (input_files : List InputFile) (output_path : String)
    (workflow_id : Option String) (task_config : Option TaskConfig)
    (runner : List String → ProcResult) :
    List (List String) × Except TaskError TaskResult :=
  let pair := runLoop (base_command task_config) (json_output_enabled task_config)
    output_path runner input_files
  match pair.2 with
  | .error e => (pair.1, .error e)
  | .ok output_files =>
    if output_files.isEmpty then
      (pair.1, .error (.runtime
        "No input files were processed or ExifTool produced no output."))
    else
      (pair.1, .ok (create_task_result output_files workflow_id
        (base_command_string task_config) []))

/-- The argument vectors of the per-file child invocations, in input order. -/
def invocationsOf (task_config : Option TaskConfig) (files : List InputFile) :
    List (List String) :=
  files.map (fun f => base_command task_config ++ [f.path])

/-- Every child process spawned for `files` under `task_config` exits zero. -/
def allSucceed (runner : List String → ProcResult) (task_config : Option TaskConfig)
    (files : List InputFile) : Bool :=
  files.all (fun f => (runner (base_command task_config ++ [f.path])).returncode == 0)

/-- All artifacts in a result have the given extension and data type. -/
def outputsWellFormed (r : TaskResult) (ext dty : String) : Bool :=
  r.output_files.all (fun a => a.extension == ext && a.data_type == dty)

/-- A child-process oracle whose every invocation exits zero with empty stderr. -/
def okRunner : List String → ProcResult := fun _ => ⟨0, []⟩

/-- A child-process oracle whose every invocation exits 1 with stderr bytes
spelling "bad". -/
def failRunner : List String → ProcResult := fun _ => ⟨1, [98, 97, 100]⟩

/-- A child-process oracle whose every invocation exits 1 with a stderr byte
sequence that is not valid UTF-8. -/
def badStderrRunner : List String → ProcResult := fun _ => ⟨1, [0xFF]⟩

/-- A sample input file for concrete witnesses. -/
def fileA : InputFile := ⟨"a.jpg", "a"⟩

/-- A second sample input file for concrete witnesses. -/
def fileB : InputFile := ⟨"b.jpg", "b"⟩

/-- When every child process exits zero, the loop invokes the tool once per
input file, in order, and accumulates one artifact per input file. -/
theorem runLoop_all_zero (base : List String) (json : Bool) (out : String)
    (runner : List String → ProcResult) (files : List InputFile)
    (h : ∀ f ∈ files, (runner (base ++ [f.path])).returncode = 0) :
    runLoop base json out runner files =
      (files.map (fun f => base ++ [f.path]),
       .ok (files.map (fun f => create_output_file out f.display_name
          (if json then ".json" else ".txt")
          (if json then "application/json" else "text/plain")))) := by
  induction files with
  | nil => rfl
  | cons f rest ih =>
    have hf : (runner (base ++ [f.path])).returncode = 0 :=
      h f (List.mem_cons_self f rest)
    have hrest : ∀ g ∈ rest, (runner (base ++ [g.path])).returncode = 0 :=
      fun g hg => h g (List.mem_cons_of_mem f hg)
    simp [runLoop, hf, ih hrest, OutputFile.to_dict]

/-- Either every child process for `files` exits zero, or the loop ends in
an error. -/
theorem runLoop_snd_cases (base : List String) (json : Bool) (out : String)
    (runner : List String → ProcResult) (files : List InputFile) :
    (∀ f ∈ files, (runner (base ++ [f.path])).returncode = 0) ∨
    ∃ e, (runLoop base json out runner files).2 = Except.error e := by
  induction files with
  | nil => exact Or.inl (fun f hf => absurd hf (List.not_mem_nil f))
  | cons f rest ih =>
    by_cases hrc : (runner (base ++ [f.path])).returncode = 0
    · cases ih with
      | inl hall =>
        refine Or.inl (fun g hg => ?_)
        rcases List.mem_cons.mp hg with hg1 | hg2
        · exact hg1 ▸ hrc
        · exact hall g hg2
      | inr herr =>
        obtain ⟨e, he⟩ := herr
        exact Or.inr ⟨e, by simp [runLoop, hrc, he]⟩
    · cases hdec : utf8Decode (runner (base ++ [f.path])).stderr with
      | none => exact Or.inr ⟨.unicodeDecode, by simp [runLoop, hrc, hdec]⟩
      | some s =>
        exact Or.inr ⟨.runtime ("ExifTool failed for " ++ f.path ++ ": " ++ s),
          by simp [runLoop, hrc, hdec]⟩

/-- The trace of child invocations produced by `command` is the trace of its
per-file loop. -/
theorem command_fst (files : List InputFile) (out : String) (wid : Option String)
    (tc : Option TaskConfig) (runner : List String → ProcResult) :
    (command files out wid tc runner).1 =
      (runLoop (base_command tc) (json_output_enabled tc) out runner files).1 := by
  simp only [command]
  split
  · rfl
  · split <;> rfl

/-- Inversion of a successful run of `command`: every child exited zero, the
input list was non-empty, and the result is exactly the builder applied to
one artifact per input file in order, the workflow id, the recorded base
command string and an empty metadata map. -/
theorem command_ok_eq (files : List InputFile) (out : String) (wid : Option String)
    (tc : Option TaskConfig) (runner : List String → ProcResult) (r : TaskResult)
    (h : (command files out wid tc runner).2 = Except.ok r) :
    (∀ f ∈ files, (runner (base_command tc ++ [f.path])).returncode = 0) ∧
    files ≠ [] ∧
    r = create_task_result
      (files.map (fun f => create_output_file out f.display_name
        (if json_output_enabled tc then ".json" else ".txt")
        (if json_output_enabled tc then "application/json" else "text/plain")))
      wid (base_command_string tc) [] := by
  rcases runLoop_snd_cases (base_command tc) (json_output_enabled tc) out runner files
    with hall | ⟨e, he⟩
  · have hrun := runLoop_all_zero (base_command tc) (json_output_enabled tc)
      out runner files hall
    by_cases hnil : files = []
    · subst hnil
      simp [command, runLoop] at h
    · refine ⟨hall, hnil, ?_⟩
      simp only [command, hrun] at h
      simp [List.isEmpty_iff, hnil] at h
      exact h.symm
  · simp only [command, he] at h
    cases h

/-- When every child process for `pre` exits zero and the child for `f`
exits non-zero, the loop stops at `f`: the trace covers exactly `pre ++ [f]`
and the outcome is the decoded-stderr error (or a decode failure). -/
theorem runLoop_fail (base : List String) (json : Bool) (out : String)
    (runner : List String → ProcResult) (pre : List InputFile) (f : InputFile)
    (post : List InputFile)
    (hpre : ∀ g ∈ pre, (runner (base ++ [g.path])).returncode = 0)
    (hf : (runner (base ++ [f.path])).returncode ≠ 0) :
    runLoop base json out runner (pre ++ f :: post) =
      ((pre ++ [f]).map (fun g => base ++ [g.path]),
        match utf8Decode (runner (base ++ [f.path])).stderr with
        | some s =>
          .error (.runtime ("ExifTool failed for " ++ f.path ++ ": " ++ s))
        | Option.none => .error .unicodeDecode) := by
  induction pre with
  | nil => simp [runLoop, hf]
  | cons g rest ih =>
    have hg : (runner (base ++ [g.path])).returncode = 0 :=
      hpre g (List.mem_cons_self g rest)
    have hrest : ∀ x ∈ rest, (runner (base ++ [x.path])).returncode = 0 :=
      fun x hx => hpre x (List.mem_cons_of_mem g hx)
    cases hdec : utf8Decode (runner (base ++ [f.path])).stderr with
    | none => simp [runLoop, hg, ih hrest, hdec]
    | some s => simp [runLoop, hg, ih hrest, hdec]

/-- Two configurations that agree on the truthiness of `json_output` give
the same task behaviour on any fixed inputs. -/
theorem command_config_congr (files : List InputFile) (out : String)
    (wid : Option String) (tc1 tc2 : Option TaskConfig)
    (runner : List String → ProcResult)
    (h : json_output_enabled tc1 = json_output_enabled tc2) :
    command files out wid tc1 runner = command files out wid tc2 runner := by
  simp only [command, base_command, base_command_string, h]

/-- C1: for a resolved input-file list whose child processes all exit zero,
the task spawns exactly one child invocation per input file, each with
argument vector equal to the base command tokens followed by that single
file's path, in the order the input files were received. -/
theorem C1_one_invocation_per_input (files : List InputFile) (out : String)
    (wid : Option String) (tc : Option TaskConfig)
    (runner : List String → ProcResult)
    (h : allSucceed runner tc files = true) :
    (command files out wid tc runner).1 = invocationsOf tc files ∧
    (command files out wid tc runner).1.length = files.length := by
  have hall : ∀ f ∈ files, (runner (base_command tc ++ [f.path])).returncode = 0 := by
    simpa [allSucceed, List.all_eq_true] using h
  have h1 : (command files out wid tc runner).1 = invocationsOf tc files := by
    rw [command_fst, runLoop_all_zero _ _ _ _ _ hall]
    rfl
  exact ⟨h1, by rw [h1]; simp [invocationsOf]⟩

/-- Witness for C1 at a concrete two-file all-success run. -/
theorem C1_one_invocation_per_input_witness :
    allSucceed okRunner Option.none [fileA, fileB] = true ∧
    ((command [fileA, fileB] "out" (some "wf-1") Option.none okRunner).1 =
      invocationsOf Option.none [fileA, fileB] ∧
     (command [fileA, fileB] "out" (some "wf-1") Option.none okRunner).1.length =
      [fileA, fileB].length) :=
  ⟨rfl, C1_one_invocation_per_input [fileA, fileB] "out" (some "wf-1")
    Option.none okRunner rfl⟩

/-- C2: for every successful run, if the config stores `json_output = True`
the recorded command string is exactly "exiftool -json"; if the lookup of
`json_output` with default `False` yields `False` (explicit false, key
absent, or `task_config = None`), it is exactly "exiftool". -/
theorem C2_recorded_command_string (files : List InputFile) (out : String)
    (wid : Option String) (tc : Option TaskConfig)
    (runner : List String → ProcResult) (r : TaskResult)
    (h : (command files out wid tc runner).2 = Except.ok r) :
    (dictGet (tc.getD []) "json_output" (.bool false) = .bool true →
      r.command = "exiftool -json") ∧
    (dictGet (tc.getD []) "json_output" (.bool false) = .bool false →
      r.command = "exiftool") := by
  obtain ⟨-, -, hr⟩ := command_ok_eq files out wid tc runner r h
  have hcmd : r.command = base_command_string tc := by rw [hr]; rfl
  constructor <;> intro hj
  · have hje : json_output_enabled tc = true := by
      simp [json_output_enabled, hj, PyValue.truthy]
    rw [hcmd]
    simp only [base_command_string, base_command, hje]
    rfl
  · have hje : json_output_enabled tc = false := by
      simp [json_output_enabled, hj, PyValue.truthy]
    rw [hcmd]
    simp only [base_command_string, base_command, hje]
    rfl

/-- Witness for C2 at a concrete `json_output = True` run. -/
theorem C2_recorded_command_string_witness :
    (command [fileA] "out" (some "wf-2") (some [("json_output", PyValue.bool true)])
        okRunner).2 =
      Except.ok (⟨[⟨"out", "a", ".json", "application/json"⟩],
        some "wf-2", "exiftool -json", []⟩ : TaskResult) ∧
    dictGet ((some [("json_output", PyValue.bool true)] : Option TaskConfig).getD [])
      "json_output" (.bool false) = .bool true ∧
    (⟨[⟨"out", "a", ".json", "application/json"⟩],
        some "wf-2", "exiftool -json", []⟩ : TaskResult).command = "exiftool -json" :=
  ⟨rfl, rfl,
    (C2_recorded_command_string [fileA] "out" (some "wf-2")
      (some [("json_output", PyValue.bool true)]) okRunner
      (⟨[⟨"out", "a", ".json", "application/json"⟩],
        some "wf-2", "exiftool -json", []⟩ : TaskResult) rfl).1 rfl⟩

/-- C3: for every successful run, if the config stores `json_output = True`
every produced artifact was allocated with extension ".json" and data type
"application/json"; if the lookup yields `False` (explicit false or absent),
with extension ".txt" and data type "text/plain". -/
theorem C3_artifact_extension_and_type (files : List InputFile) (out : String)
    (wid : Option String) (tc : Option TaskConfig)
    (runner : List String → ProcResult) (r : TaskResult)
    (h : (command files out wid tc runner).2 = Except.ok r) :
    (dictGet (tc.getD []) "json_output" (.bool false) = .bool true →
      outputsWellFormed r ".json" "application/json" = true) ∧
    (dictGet (tc.getD []) "json_output" (.bool false) = .bool false →
      outputsWellFormed r ".txt" "text/plain" = true) := by
  obtain ⟨-, -, hr⟩ := command_ok_eq files out wid tc runner r h
  subst hr
  constructor <;> intro hj
  · have hje : json_output_enabled tc = true := by
      simp [json_output_enabled, hj, PyValue.truthy]
    simp [outputsWellFormed, create_task_result, create_output_file, hje,
      List.all_eq_true]
  · have hje : json_output_enabled tc = false := by
      simp [json_output_enabled, hj, PyValue.truthy]
    simp [outputsWellFormed, create_task_result, create_output_file, hje,
      List.all_eq_true]

/-- Witness for C3 at a concrete `json_output = True` run. -/
theorem C3_artifact_extension_and_type_witness :
    (command [fileA] "out" (some "wf-3") (some [("json_output", PyValue.bool true)])
        okRunner).2 =
      Except.ok (⟨[⟨"out", "a", ".json", "application/json"⟩],
        some "wf-3", "exiftool -json", []⟩ : TaskResult) ∧
    dictGet ((some [("json_output", PyValue.bool true)] : Option TaskConfig).getD [])
      "json_output" (.bool false) = .bool true ∧
    outputsWellFormed (⟨[⟨"out", "a", ".json", "application/json"⟩],
        some "wf-3", "exiftool -json", []⟩ : TaskResult) ".json" "application/json"
      = true :=
  ⟨rfl, rfl,
    (C3_artifact_extension_and_type [fileA] "out" (some "wf-3")
      (some [("json_output", PyValue.bool true)]) okRunner
      (⟨[⟨"out", "a", ".json", "application/json"⟩],
        some "wf-3", "exiftool -json", []⟩ : TaskResult) rfl).1 rfl⟩

/-- C4: if a child process exits non-zero (with UTF-8-decodable stderr) after
all earlier children exited zero, the task raises an error whose message is
"ExifTool failed for " followed by the failing input path, ": ", and the
captured stderr text, and no input file after the failing one is processed:
the invocation trace covers exactly the files up to and including it. -/
theorem C4_nonzero_exit_aborts (pre : List InputFile) (f : InputFile)
    (post : List InputFile) (out : String) (wid : Option String)
    (tc : Option TaskConfig) (runner : List String → ProcResult) (s : String)
    (hpre : allSucceed runner tc pre = true)
    (hf : (runner (base_command tc ++ [f.path])).returncode ≠ 0)
    (hs : utf8Decode (runner (base_command tc ++ [f.path])).stderr = some s) :
    (command (pre ++ f :: post) out wid tc runner).2 =
      Except.error (.runtime ("ExifTool failed for " ++ f.path ++ ": " ++ s)) ∧
    (command (pre ++ f :: post) out wid tc runner).1 =
      invocationsOf tc (pre ++ [f]) := by
  have hpre' : ∀ g ∈ pre, (runner (base_command tc ++ [g.path])).returncode = 0 := by
    simpa [allSucceed, List.all_eq_true] using hpre
  have hrl : runLoop (base_command tc) (json_output_enabled tc) out runner
      (pre ++ f :: post) =
      ((pre ++ [f]).map (fun g => base_command tc ++ [g.path]),
        Except.error (.runtime ("ExifTool failed for " ++ f.path ++ ": " ++ s))) := by
    rw [runLoop_fail (base_command tc) (json_output_enabled tc) out runner
      pre f post hpre' hf, hs]
  constructor
  · simp only [command, hrl]
  · rw [command_fst, hrl]
    rfl

/-- Witness for C4: second of two files never reached, exact message. -/
theorem C4_nonzero_exit_aborts_witness :
    allSucceed failRunner Option.none [] = true ∧
    (failRunner (base_command Option.none ++ [fileA.path])).returncode ≠ 0 ∧
    utf8Decode (failRunner (base_command Option.none ++ [fileA.path])).stderr =
      some "bad" ∧
    (command ([] ++ fileA :: [fileB]) "out" (some "wf-4") Option.none
        failRunner).2 =
      Except.error (.runtime ("ExifTool failed for " ++ fileA.path ++ ": " ++ "bad")) ∧
    (command ([] ++ fileA :: [fileB]) "out" (some "wf-4") Option.none
        failRunner).1 = invocationsOf Option.none ([] ++ [fileA]) :=
  ⟨rfl, by decide, rfl,
    (C4_nonzero_exit_aborts [] fileA [fileB] "out" (some "wf-4") Option.none
      failRunner "bad" rfl (by decide) rfl).1,
    (C4_nonzero_exit_aborts [] fileA [fileB] "out" (some "wf-4") Option.none
      failRunner "bad" rfl (by decide) rfl).2⟩

/-- C5: on an empty resolved input-file list the task spawns no child
process and raises a RuntimeError instead of returning a result. -/
theorem C5_empty_inputs_error (out : String) (wid : Option String)
    (tc : Option TaskConfig) (runner : List String → ProcResult) :
    command [] out wid tc runner =
      ([], Except.error (.runtime
        "No input files were processed or ExifTool produced no output.")) := by
  simp [command, runLoop]

/-- C6: the recorded command string of a successful run is exactly the
space-joined base command, a function of the configuration alone: a second
successful run with a different input-file list and child-process behaviour
records the identical command string. -/
theorem C6_base_command_frame (files : List InputFile) (out : String)
    (wid : Option String) (tc : Option TaskConfig)
    (runner : List String → ProcResult) (r : TaskResult)
    (files2 : List InputFile) (runner2 : List String → ProcResult)
    (r2 : TaskResult)
    (h : (command files out wid tc runner).2 = Except.ok r)
    (h2 : (command files2 out wid tc runner2).2 = Except.ok r2) :
    r.command = base_command_string tc ∧ r2.command = r.command := by
  obtain ⟨-, -, hr⟩ := command_ok_eq files out wid tc runner r h
  obtain ⟨-, -, hr2⟩ := command_ok_eq files2 out wid tc runner2 r2 h2
  have h1 : r.command = base_command_string tc := by rw [hr]; rfl
  have h3 : r2.command = base_command_string tc := by rw [hr2]; rfl
  exact ⟨h1, h3.trans h1.symm⟩

/-- Witness for C6: a one-file and a two-file run record the same string. -/
theorem C6_base_command_frame_witness :
    (command [fileA] "out" (some "wf-6") Option.none okRunner).2 =
      Except.ok (⟨[⟨"out", "a", ".txt", "text/plain"⟩],
        some "wf-6", "exiftool", []⟩ : TaskResult) ∧
    (command [fileA, fileB] "out" (some "wf-6") Option.none okRunner).2 =
      Except.ok (⟨[⟨"out", "a", ".txt", "text/plain"⟩,
        ⟨"out", "b", ".txt", "text/plain"⟩],
        some "wf-6", "exiftool", []⟩ : TaskResult) ∧
    ((⟨[⟨"out", "a", ".txt", "text/plain"⟩],
        some "wf-6", "exiftool", []⟩ : TaskResult).command =
      base_command_string Option.none ∧
     (⟨[⟨"out", "a", ".txt", "text/plain"⟩,
        ⟨"out", "b", ".txt", "text/plain"⟩],
        some "wf-6", "exiftool", []⟩ : TaskResult).command =
      (⟨[⟨"out", "a", ".txt", "text/plain"⟩],
        some "wf-6", "exiftool", []⟩ : TaskResult).command) :=
  ⟨rfl, rfl,
    C6_base_command_frame [fileA] "out" (some "wf-6") Option.none okRunner
      (⟨[⟨"out", "a", ".txt", "text/plain"⟩], some "wf-6", "exiftool", []⟩ : TaskResult)
      [fileA, fileB] okRunner
      (⟨[⟨"out", "a", ".txt", "text/plain"⟩, ⟨"out", "b", ".txt", "text/plain"⟩],
        some "wf-6", "exiftool", []⟩ : TaskResult) rfl rfl⟩

/-- C7: passing `task_config = None`, an empty dict, or the explicit dict
with `json_output = False` gives the identical task behaviour and result on
any fixed inputs. -/
theorem C7_default_config_equivalences (files : List InputFile) (out : String)
    (wid : Option String) (runner : List String → ProcResult) :
    command files out wid Option.none runner =
      command files out wid (some []) runner ∧
    command files out wid Option.none runner =
      command files out wid (some [("json_output", PyValue.bool false)]) runner :=
  ⟨command_config_congr files out wid Option.none (some []) runner rfl,
   command_config_congr files out wid Option.none
     (some [("json_output", PyValue.bool false)]) runner rfl⟩

/-- C8: on a successful run (non-empty input list, all children exit zero),
the task's outcome is exactly one application of the external result
builder, passed the serialized output artifacts in processing order, the
workflow identifier unchanged, the recorded base-command string, and an
empty metadata map. -/
theorem C8_result_builder_arguments (files : List InputFile) (out : String)
    (wid : Option String) (tc : Option TaskConfig)
    (runner : List String → ProcResult)
    (hne : files ≠ [])
    (hall : allSucceed runner tc files = true) :
    (command files out wid tc runner).2 =
      Except.ok (create_task_result
        (files.map (fun f => (create_output_file out f.display_name
          (if json_output_enabled tc then ".json" else ".txt")
          (if json_output_enabled tc then "application/json" else "text/plain")).to_dict))
        wid (base_command_string tc) []) := by
  have hall' : ∀ f ∈ files, (runner (base_command tc ++ [f.path])).returncode = 0 := by
    simpa [allSucceed, List.all_eq_true] using hall
  have hrun := runLoop_all_zero (base_command tc) (json_output_enabled tc)
    out runner files hall'
  simp only [command, hrun, OutputFile.to_dict]
  simp [List.isEmpty_iff, hne]

/-- Witness for C8 at a concrete one-file default-config run. -/
theorem C8_result_builder_arguments_witness :
    ([fileA] : List InputFile) ≠ [] ∧
    allSucceed okRunner Option.none [fileA] = true ∧
    (command [fileA] "out" (some "wf-8") Option.none okRunner).2 =
      Except.ok (create_task_result
        ([fileA].map (fun f => (create_output_file "out" f.display_name
          (if json_output_enabled Option.none then ".json" else ".txt")
          (if json_output_enabled Option.none then "application/json"
            else "text/plain")).to_dict))
        (some "wf-8") (base_command_string Option.none) []) :=
  ⟨by decide, rfl,
    C8_result_builder_arguments [fileA] "out" (some "wf-8") Option.none okRunner
      (by decide) rfl⟩

/-- C9: the `json_output` value is tested for truthiness, not equality with
`True`: any truthy value stored under `json_output` (for example the string
"false") enables JSON mode, giving the `-json` flag, the recorded command
string "exiftool -json", and `.json` / `application/json` artifacts. -/
theorem C9_truthiness_enables_json (v : PyValue) (files : List InputFile)
    (out : String) (wid : Option String) (runner : List String → ProcResult)
    (r : TaskResult)
    (hv : v.truthy = true)
    (h : (command files out wid (some [("json_output", v)]) runner).2 =
      Except.ok r) :
    base_command (some [("json_output", v)]) = ["exiftool", "-json"] ∧
    r.command = "exiftool -json" ∧
    outputsWellFormed r ".json" "application/json" = true := by
  have hd : dictGet [("json_output", v)] "json_output" (.bool false) = v := rfl
  have hje : json_output_enabled (some [("json_output", v)]) = true := by
    show (dictGet [("json_output", v)] "json_output" (.bool false)).truthy = true
    rw [hd]
    exact hv
  obtain ⟨-, -, hr⟩ :=
    command_ok_eq files out wid (some [("json_output", v)]) runner r h
  subst hr
  refine ⟨by simp [base_command, hje], ?_, ?_⟩
  · show base_command_string (some [("json_output", v)]) = "exiftool -json"
    simp only [base_command_string, base_command, hje]
    rfl
  · simp [outputsWellFormed, create_task_result, create_output_file, hje,
      List.all_eq_true]

/-- Witness for C9 with the truthy non-boolean value "false". -/
theorem C9_truthiness_enables_json_witness :
    (PyValue.str "false").truthy = true ∧
    (command [fileA] "out" (some "wf-9")
        (some [("json_output", PyValue.str "false")]) okRunner).2 =
      Except.ok (⟨[⟨"out", "a", ".json", "application/json"⟩],
        some "wf-9", "exiftool -json", []⟩ : TaskResult) ∧
    (base_command (some [("json_output", PyValue.str "false")]) =
        ["exiftool", "-json"] ∧
     (⟨[⟨"out", "a", ".json", "application/json"⟩],
        some "wf-9", "exiftool -json", []⟩ : TaskResult).command =
        "exiftool -json" ∧
     outputsWellFormed (⟨[⟨"out", "a", ".json", "application/json"⟩],
        some "wf-9", "exiftool -json", []⟩ : TaskResult)
        ".json" "application/json" = true) :=
  ⟨rfl, rfl,
    C9_truthiness_enables_json (PyValue.str "false") [fileA] "out" (some "wf-9")
      okRunner
      (⟨[⟨"out", "a", ".json", "application/json"⟩],
        some "wf-9", "exiftool -json", []⟩ : TaskResult) rfl rfl⟩

/-- C10: on the failure path, building the error message requires the
captured stderr bytes to decode as UTF-8; when they do not, the decoding
step itself fails, so the task ends in a UnicodeDecodeError rather than the
RuntimeError carrying the input path and stderr text. -/
theorem C10_invalid_utf8_stderr (pre : List InputFile) (f : InputFile)
    (post : List InputFile) (out : String) (wid : Option String)
    (tc : Option TaskConfig) (runner : List String → ProcResult)
    (hpre : allSucceed runner tc pre = true)
    (hf : (runner (base_command tc ++ [f.path])).returncode ≠ 0)
    (hdec : utf8Decode (runner (base_command tc ++ [f.path])).stderr =
      Option.none) :
    (command (pre ++ f :: post) out wid tc runner).2 =
      Except.error TaskError.unicodeDecode := by
  have hpre' : ∀ g ∈ pre, (runner (base_command tc ++ [g.path])).returncode = 0 := by
    simpa [allSucceed, List.all_eq_true] using hpre
  have hrl : runLoop (base_command tc) (json_output_enabled tc) out runner
      (pre ++ f :: post) =
      ((pre ++ [f]).map (fun g => base_command tc ++ [g.path]),
        Except.error TaskError.unicodeDecode) := by
    rw [runLoop_fail (base_command tc) (json_output_enabled tc) out runner
      pre f post hpre' hf, hdec]
  simp only [command, hrl]

/-- Witness for C10 with stderr byte 0xFF, which is not valid UTF-8. -/
theorem C10_invalid_utf8_stderr_witness :
    allSucceed badStderrRunner Option.none [] = true ∧
    (badStderrRunner (base_command Option.none ++ [fileA.path])).returncode ≠ 0 ∧
    utf8Decode (badStderrRunner (base_command Option.none ++ [fileA.path])).stderr =
      Option.none ∧
    (command ([] ++ fileA :: []) "out" (some "wf-10") Option.none
        badStderrRunner).2 = Except.error TaskError.unicodeDecode :=
  ⟨rfl, by decide, rfl,
    C10_invalid_utf8_stderr [] fileA [] "out" (some "wf-10") Option.none
      badStderrRunner rfl (by decide) rfl⟩

end ExifWorker
